import Mathlib

/-!
Verification of the link lifecycle and synchronization core of
`src/valuelink/src/hooks.ts` (NestedLink React hooks).

The file shallowly embeds the hooks' state manipulation logic:

* the async readiness counter of `useIO` (lines 122-138): JS `number | null`
  becomes `Option Int`, the functional updates `x => (x || 0) + 1` and
  `x => x - 1` become `incCounter` / `decCounter` (JS coerces `null` to `0`
  in arithmetic and treats `null` and `0` as falsy in `||`), and the derived
  boolean `$isReady.value === null ? false : !$isReady.value` becomes
  `isReady`;
* the mount flag of `useIsMountedRef` (lines 51-59): a fold over lifecycle
  events, where only the cleanup of the empty-deps effect (teardown) writes
  the flag, and it writes `false`;
* the guarded setter of `useSafeLink` (line 45), the `update` method of
  `UseStateLink` (lines 9-18) over an explicit object heap with an effect
  log, the synchronizing effect of `useBoundLink` / `useSafeBoundLink`
  (lines 65-87), and the load/save steps of `useLocalStorage` (lines
  95-109).
-/

set_option autoImplicit false

/-! ### Async readiness counter (`useIO`, lines 122-138) -/

/-- JS functional increment `x => (x || 0) + 1` (line 130).  In JS, `null`
and `0` are falsy, so `x || 0` is `Option.getD x 0` on the `number | null`
counter; the result of `+ 1` is always a number (`some`). -/
def incCounter (c : Option Int) : Option Int :=
  some (c.getD 0 + 1)

/-- JS functional decrement `x => x - 1` (line 132).  JS arithmetic coerces
`null` to `0`, so `x - 1` is `x.getD 0 - 1`; the result is always a number. -/
def decCounter (c : Option Int) : Option Int :=
  some (c.getD 0 - 1)

/-- JS boolean coercion `!x` on a number: true exactly when the number is 0
(NaN never arises here: the counter only ever holds integers). -/
def jsNot (n : Int) : Bool :=
  n == 0

/-- Derived readiness `$isReady.value === null ? false : !$isReady.value`
(line 137). -/
def isReady : Option Int → Bool
  | none => false
  | some n => jsNot n

/-- An event observed by the counter: an effect firing dispatches one async
operation (increment, line 130), and its `.finally` callback settles it
(decrement, line 132).  The id tags which operation; the counter ignores it. -/
inductive IOEvent where
  | dispatch (id : Nat)
  | settle (id : Nat)
deriving DecidableEq

/-- How one event transforms the counter cell held in the safe link. -/
def stepCounter (c : Option Int) : IOEvent → Option Int
  | .dispatch _ => incCounter c
  | .settle _ => decCounter c

/-- Counter value after a sequence of dispatch/settle events, starting from
the initial `null` (line 126: `useSafeLink<number>( null )`). -/
def runCounter (t : List IOEvent) : Option Int :=
  t.foldl stepCounter none

/-- Readiness observed after a sequence of dispatch/settle events. -/
def readyAt (t : List IOEvent) : Bool :=
  isReady (runCounter t)

/-- Model of the JS `promise.finally(onFinally)` used on line 132: the
callback runs once when the promise settles, whether it resolved or
rejected, and the settled outcome passes through unmodified (the callback
here returns no promise and does not throw).  `c` is the counter cell the
callback updates. -/
def promiseFinally {ε α : Type} (outcome : Except ε α) (onFinally : Option Int → Option Int)
    (c : Option Int) : Option Int × Except ε α :=
  (onFinally c, outcome)

/-- One full dispatched operation of `useIO` (lines 130-132): increment the
counter, run `fun()` to its outcome, and decrement in `.finally`. -/
def dispatchOnce {ε α : Type} (c : Option Int) (outcome : Except ε α) :
    Option Int × Except ε α :=
  promiseFinally outcome decCounter (incCounter c)

/-! ### Mount flag (`useIsMountedRef`, lines 51-59) -/

/-- A lifecycle event of the owning component: an ordinary render, or the
teardown in which React runs the cleanup returned by the empty-deps effect
(lines 54-56), the only writer of the flag. -/
inductive LifeEvent where
  | render
  | teardown
deriving DecidableEq

/-- Whether an event is the teardown. -/
def isTeardownEv : LifeEvent → Bool
  | .render => false
  | .teardown => true

/-- Effect of one lifecycle event on `isMounted.current`: renders leave it
alone; the cleanup `() => isMounted.current = false` (line 55) writes
`false`. -/
def mountedFlagStep (f : Bool) : LifeEvent → Bool
  | .render => f
  | .teardown => false

/-- Value of `isMounted.current` after a sequence of lifecycle events,
starting from `useRef( true )` (line 52). -/
def mountedFlagAfter (t : List LifeEvent) : Bool :=
  t.foldl mountedFlagStep true

theorem foldl_mountedFlagStep (t : List LifeEvent) (b : Bool) :
    t.foldl mountedFlagStep b = (b && !(t.any isTeardownEv)) := by
  induction t generalizing b with
  | nil => simp
  | cons e t ih =>
    cases e <;> simp [List.foldl_cons, List.any_cons, mountedFlagStep, isTeardownEv, ih]

/-! ### Object heap with effect log, for `UseStateLink.update` (lines 9-18) -/

/-- Observable effects of running the closure that `update` passes to
`set`: allocating the clone, and invoking the user function `fun`. -/
inductive UpdEff where
  | cloneCall
  | fnCall
deriving DecidableEq

/-- A JS-style world: a heap of objects (address to data) together with a
log of the effects performed so far.  References are heap addresses. -/
structure World (α : Type) where
  objs : List α
  log : List UpdEff
deriving DecidableEq

/-- Data held at reference `r`. -/
def World.read {α : Type} [Inhabited α] (w : World α) (r : Nat) : α :=
  w.objs.getD r default

/-- Allocate a fresh object holding `d`; returns the new world and the fresh
reference. -/
def World.alloc {α : Type} (w : World α) (d : α) : World α × Nat :=
  ({ w with objs := w.objs ++ [d] }, w.objs.length)

/-- In-place mutation of the object at reference `r`. -/
def World.write {α : Type} (w : World α) (r : Nat) (d : α) : World α :=
  { w with objs := w.objs.set r d }

/-- Record an effect in the log. -/
def World.logEff {α : Type} (w : World α) (e : UpdEff) : World α :=
  { w with log := w.log ++ [e] }

/-- Modelled from the spec: `helpers( x ).clone( x )` (line 13) — the
"deep-clone-by-value operation used by `update`" consumed from the base
cursor/link collaborator (spec §6); `helpers.ts` is not under `src/`.
Allocates a fresh object carrying the same data as `x` and logs the call. -/
def cloneOp {α : Type} [Inhabited α] (w : World α) (x : Nat) : World α × Nat :=
  (w.logEff .cloneCall).alloc (w.read x)

/-- Semantics of a user update function `fun : (x, event?) => T | undefined`:
it may mutate the world (e.g. the draft it was given, in place) and returns
either a reference (a defined result) or `none` (JS `undefined`). -/
def FnSem (α Ev : Type) : Type :=
  World α → Nat → Option Ev → World α × Option Nat

/-- Closure that `UseStateLink.update` passes to `this.set` (lines 12-17):
clone the current value `x`, invoke `fun` on the clone (and the optional
event), and return `fun`'s result unless it is `undefined`, in which case
return `x` itself.  The `fnCall` effect is logged at the call site, so an
empty log difference proves `fun` was never invoked. -/
def updateClosure {α Ev : Type} [Inhabited α] (fn : FnSem α Ev) (event : Option Ev)
    (w : World α) (x : Nat) : World α × Nat :=
  let c := cloneOp w x
  let fr := fn (c.1.logEff .fnCall) c.2 event
  (fr.1, match fr.2 with
    | none => x
    | some r => r)

/-! ### Guarded setter of `useSafeLink` (lines 41-46) -/

/-- Argument accepted by a link's `set`: a direct value or a functional
update (`x : T | ( ( x : T ) => T )`, line 7). -/
inductive SetArg (σ : Type) where
  | direct (v : σ)
  | functional (f : σ → σ)

/-- The host component's state cell as seen by a state-backed link: the
current state, how many state transitions have been scheduled, and the
mount flag consulted by the safe link's guard. -/
structure SafeHost (σ : Type) where
  state : σ
  scheduled : Nat
  mounted : Bool

/-- The host `set` obtained from `useState` (line 42): applies the argument
to the state and schedules one re-render. -/
def hostSet {σ : Type} (h : SafeHost σ) (a : SetArg σ) : SafeHost σ :=
  { h with
    state := match a with
      | .direct v => v
      | .functional f => f h.state
    scheduled := h.scheduled + 1 }

/-- The guarded setter `x => isMounted.current && set( x )` built by
`useSafeLink` (line 45): when the mount flag is false, `&&`
short-circuits and the host `set` is never called. -/
def safeSet {σ : Type} (h : SafeHost σ) (a : SetArg σ) : SafeHost σ :=
  if h.mounted then hostSet h a else h

/-- Composition `useSafeLink` + `UseStateLink.update` (lines 9-18 and 45)
over the instrumented world: `update` hands `updateClosure` to the guarded
setter; only when the mount flag is true does the host apply the closure
to the current state reference `cell`. -/
def safeUpdate {α Ev : Type} [Inhabited α] (mounted : Bool) (w : World α) (cell : Nat)
    (fn : FnSem α Ev) (event : Option Ev) : World α × Nat :=
  if mounted then updateClosure fn event w cell else (w, cell)

/-! ### Bound links (`useBoundLink` / `useSafeBoundLink`, lines 65-87) -/

/-- A link object as a source: distinct objects (different `id`) may hold
the same current value. -/
structure LinkObj (α : Type) where
  id : Nat
  value : α
deriving DecidableEq

/-- The `source : T | Link<T>` argument of the bound hooks. -/
inductive Source (α : Type) where
  | bare (v : α)
  | link (l : LinkObj α)
deriving DecidableEq

/-- Extraction `source instanceof Link ? source.value : source`
(lines 66 and 81). -/
def extractSource {α : Type} : Source α → α
  | .bare v => v
  | .link l => l.value

/-- Host state behind a bound link: the local state cell (whose value the
rendered link exposes as `link.value`), and the dependency value the host
recorded the last time the synchronizing effect ran (`none` before the
first run, so the mount-time effect always fires). -/
structure BoundHost (α : Type) where
  cell : α
  lastDep : Option α
deriving DecidableEq

/-- A local `set` by the caller between renders: overwrites the state cell
(the dependency record is untouched — deps belong to the effect). -/
def callerSet {α : Type} (h : BoundHost α) (x : α) : BoundHost α :=
  { h with cell := x }

/-- One render's worth of the synchronizing effect
`useEffect(() => link.set( value ), [ value ])` (lines 69 and 84): React
compares the extracted value against the previously observed dependency
(identity comparison, modelled by equality) and runs `link.set( value )`
exactly when it differs. -/
def runBoundEffect {α : Type} [DecidableEq α] (h : BoundHost α) (source : Source α) :
    BoundHost α :=
  let v := extractSource source
  if h.lastDep = some v then h
  else { cell := v, lastDep := some v }

/-! ### Persistence (`useLocalStorage`, lines 95-109) -/

/-- The text that `localStorage.getItem` can return, classified by how
`JSON.parse` treats it: the empty string (falsy, and unparsable), the
serialization of an object `o`, or non-empty malformed text. -/
inductive RawText (V : Type) where
  | emptyText
  | jsonOf (o : List (String × V))
  | badText
deriving DecidableEq

/-- JS string falsiness: only the empty string is falsy. -/
def jsFalsyText {V : Type} : RawText V → Bool
  | .emptyText => true
  | _ => false

/-- Model of the platform `JSON.parse`: returns the decoded object for
well-formed input and throws (`Except.error`) on the empty string or on
malformed text. -/
def jsonParseModel {V : Type} : RawText V → Except Unit (List (String × V))
  | .emptyText => .error ()
  | .jsonOf o => .ok o
  | .badText => .error ()

/-- Load-on-mount step of `useLocalStorage` (line 101):
`JSON.parse( localStorage.getItem( key ) || '\x7b\x7d' )`.  The `||`
replaces a `null` or falsy (empty-string) item with the literal text of the
empty object before parsing; any other text goes to `JSON.parse` as is. -/
def loadOnMount {V : Type} (item : Option (RawText V)) : Except Unit (List (String × V)) :=
  let s := match item with
    | none => RawText.jsonOf []
    | some r => if jsFalsyText r then RawText.jsonOf [] else r
  jsonParseModel s

/-- Modelled from the spec: `Link.getValues` (line 105) — the "static
batch-read operation `getValues(namedLinks)`" of the base link collaborator
(spec §6); `link.ts` is not under `src/`.  Reads each named link's current
value. -/
def getValues {V : Type} (ls : List (String × LinkObj V)) : List (String × V) :=
  ls.map (fun kv => (kv.1, kv.2.value))

/-- The ref rewrite `stateRef.current = state` executed on every render
(line 98): after renders with links objects `first, rest...`, the ref holds
the last one. -/
def finalStateRef {V : Type} (first : List (String × LinkObj V))
    (rest : List (List (String × LinkObj V))) : List (String × LinkObj V) :=
  rest.foldl (fun _ s => s) first

/-- Teardown step of `useLocalStorage` (lines 104-107): the cleanup reads
the links object through `stateRef.current` and persists its values. -/
def persistedAtTeardown {V : Type} (first : List (String × LinkObj V))
    (rest : List (List (String × LinkObj V))) : List (String × V) :=
  getValues (finalStateRef first rest)

/-! ### Concrete update functions used as inputs -/

/-- An update function that mutates its draft in place (sets its data to 99)
and returns `undefined`. -/
def mutateDraftFn : FnSem Nat Unit :=
  fun w r _ => (w.write r 99, none)

/-- An update function that leaves the world alone and returns its draft. -/
def returnDraftFn : FnSem Nat Unit :=
  fun w r _ => (w, some r)

theorem getD_concat_self {α : Type} [Inhabited α] (l : List α) (a : α) :
    (l ++ [a]).getD l.length default = a := by
  induction l with
  | nil => rfl
  | cons b l ih => simp [ih]

/-- C1 counterexample.  Heap `[10]`, current value at reference 0; the
update function mutates the cloned draft (reference 1) to `99` and returns
`undefined`.  The claim says the mutated cloned draft (reference 1) is
committed, "never the original unmutated reference"; the code commits
reference 0, whose data is the original `10`. -/
theorem update_undefined_commits_original_cex :
    (updateClosure mutateDraftFn none (⟨[10], []⟩ : World Nat) 0).2 = 0 ∧
    (updateClosure mutateDraftFn none (⟨[10], []⟩ : World Nat) 0).2 ≠
      (cloneOp (⟨[10], []⟩ : World Nat) 0).2 ∧
    (updateClosure mutateDraftFn none (⟨[10], []⟩ : World Nat) 0).1.read 0 = 10 ∧
    (updateClosure mutateDraftFn none (⟨[10], []⟩ : World Nat) 0).1.read 1 = 99 := by
  refine ⟨rfl, by decide, rfl, rfl⟩

/-- C1, amended.  `update(fn)` clones the current value into a fresh
reference carrying the same data, invokes `fn` on that clone, and commits
`fn`'s result when it is defined; when `fn` returns `undefined`, it commits
the original reference `x` unchanged (the clone, mutated or not, is
discarded, which makes returning `undefined` a cancelled update). -/
theorem update_commit_semantics {α Ev : Type} [Inhabited α] (fn : FnSem α Ev)
    (event : Option Ev) (w w2 : World α) (x : Nat) (res : Option Nat)
    (hfn : fn ((cloneOp w x).1.logEff .fnCall) (cloneOp w x).2 event = (w2, res)) :
    updateClosure fn event w x = (w2, res.getD x) ∧
    (cloneOp w x).2 = w.objs.length ∧
    (cloneOp w x).1.read (cloneOp w x).2 = w.read x := by
  refine ⟨?_, rfl, ?_⟩
  · simp only [updateClosure, hfn]
    cases res <;> rfl
  · simp only [cloneOp, World.alloc, World.logEff, World.read]
    exact getD_concat_self _ _

/-- Witness for `update_commit_semantics` at a concrete input. -/
theorem update_commit_semantics_witness :
    updateClosure returnDraftFn none (⟨[5], []⟩ : World Nat) 0 =
      ((⟨[5, 5], [UpdEff.cloneCall, UpdEff.fnCall]⟩ : World Nat), (some 1).getD 0) ∧
    (cloneOp (⟨[5], []⟩ : World Nat) 0).2 = (⟨[5], []⟩ : World Nat).objs.length ∧
    (cloneOp (⟨[5], []⟩ : World Nat) 0).1.read (cloneOp (⟨[5], []⟩ : World Nat) 0).2 =
      (⟨[5], []⟩ : World Nat).read 0 :=
  update_commit_semantics returnDraftFn none ⟨[5], []⟩
    ⟨[5, 5], [UpdEff.cloneCall, UpdEff.fnCall]⟩ 0 (some 1) rfl

/-- C2.  With the mount flag false, the guarded setter of `useSafeLink` is
a total no-op for any argument (direct or functional): the host state is
unchanged and no state transition is scheduled.  Totality of `safeSet`
models that no error is thrown. -/
theorem safeLink_set_after_teardown_noop {σ : Type} (h : SafeHost σ) (a : SetArg σ)
    (hm : h.mounted = false) :
    safeSet h a = h ∧
    (safeSet h a).state = h.state ∧
    (safeSet h a).scheduled = h.scheduled := by
  simp [safeSet, hm]

/-- Witness for `safeLink_set_after_teardown_noop` at a concrete input. -/
theorem safeLink_set_after_teardown_noop_witness :
    safeSet (⟨0, 0, false⟩ : SafeHost Nat) (SetArg.direct 42) = (⟨0, 0, false⟩ : SafeHost Nat) ∧
    (safeSet (⟨0, 0, false⟩ : SafeHost Nat) (SetArg.direct 42)).state =
      (⟨0, 0, false⟩ : SafeHost Nat).state ∧
    (safeSet (⟨0, 0, false⟩ : SafeHost Nat) (SetArg.direct 42)).scheduled =
      (⟨0, 0, false⟩ : SafeHost Nat).scheduled :=
  safeLink_set_after_teardown_noop ⟨0, 0, false⟩ (SetArg.direct 42) rfl

/-- C3.  Two overlapping dispatches through `useIO`'s counter: both are
dispatched before either settles, and the settles then arrive in either
order (the right disjunct is the order in which the first-dispatched
operation settles last).  At every proper prefix of the event sequence
(indexed by `k < t.length`) the derived readiness is `false`; after both
have settled it is `true`. -/
theorem useIO_overlapping_dispatch_readiness (i j k : Nat) (t : List IOEvent)
    (ht : t = [IOEvent.dispatch i, IOEvent.dispatch j, IOEvent.settle i, IOEvent.settle j] ∨
          t = [IOEvent.dispatch i, IOEvent.dispatch j, IOEvent.settle j, IOEvent.settle i])
    (hk : k < t.length) :
    readyAt (t.take k) = false ∧ readyAt t = true := by
  rcases ht with ht | ht <;>
    · subst ht
      refine ⟨?_, rfl⟩
      simp only [List.length_cons, List.length_nil] at hk
      interval_cases k <;> rfl

/-- Witness for `useIO_overlapping_dispatch_readiness`: the interleaving in
which the first-dispatched operation settles last, observed one event
before the end and at the end. -/
theorem useIO_overlapping_dispatch_readiness_witness :
    readyAt (([IOEvent.dispatch 0, IOEvent.dispatch 1, IOEvent.settle 1,
        IOEvent.settle 0]).take 3) = false ∧
    readyAt [IOEvent.dispatch 0, IOEvent.dispatch 1, IOEvent.settle 1,
        IOEvent.settle 0] = true :=
  useIO_overlapping_dispatch_readiness 0 1 3 _ (Or.inr rfl) (by decide)

/-- C4.  The readiness boolean derived on line 137 is `false` for the
never-dispatched `null` counter, `true` for counter 0, and `false` for any
counter of 1 or greater. -/
theorem useIO_readiness_derivation (n : Int) (hn : 1 ≤ n) :
    isReady none = false ∧ isReady (some 0) = true ∧ isReady (some n) = false := by
  refine ⟨rfl, rfl, ?_⟩
  simp only [isReady, jsNot, beq_eq_false_iff_ne, ne_eq]
  omega

/-- Witness for `useIO_readiness_derivation` at counter 2. -/
theorem useIO_readiness_derivation_witness :
    isReady none = false ∧ isReady (some 0) = true ∧ isReady (some 2) = false :=
  useIO_readiness_derivation 2 (by decide)

/-- C5.  A dispatched operation settles through `.finally` (line 132): the
counter is decremented exactly once whether the outcome is resolution or
rejection, the decrement is the same functional update in both cases, and
the outcome itself — in particular a rejection — passes through
unmodified. -/
theorem useIO_settle_decrements_and_propagates {ε α : Type} (c : Option Int)
    (e : ε) (a : α) :
    (dispatchOnce c (Except.error e : Except ε α)).2 = Except.error e ∧
    (dispatchOnce c (Except.ok a : Except ε α)).2 = Except.ok a ∧
    (dispatchOnce c (Except.error e : Except ε α)).1 = decCounter (incCounter c) ∧
    (dispatchOnce c (Except.ok a : Except ε α)).1 = decCounter (incCounter c) :=
  ⟨rfl, rfl, rfl, rfl⟩

/-- C6.  Source-wins synchronization of the bound hooks: with the last
observed dependency `a` and an interim caller `set`, a source whose
extracted value is `b ≠ a` re-fires the effect and overwrites the cell to
`b`; a source that is a *different link object* with the *same* extracted
value `a` does not re-fire the effect, and the interim state survives. -/
theorem useBoundLink_source_wins {α : Type} [DecidableEq α] (h : BoundHost α)
    (a b interim : α) (srcB srcSameVal : Source α)
    (hdep : h.lastDep = some a)
    (hb : extractSource srcB = b)
    (hba : b ≠ a)
    (hsame : extractSource srcSameVal = a) :
    (runBoundEffect (callerSet h interim) srcB).cell = b ∧
    runBoundEffect (callerSet h interim) srcSameVal = callerSet h interim := by
  constructor
  · simp [runBoundEffect, callerSet, hdep, hb, Option.some.injEq, Ne.symm hba]
  · simp [runBoundEffect, callerSet, hdep, hsame]

/-- Witness for `useBoundLink_source_wins`: cell 0, last dependency 1,
interim value 7; the new source is the bare value 2, and the same-value
source is a different link object (id 99) holding 1. -/
theorem useBoundLink_source_wins_witness :
    (runBoundEffect (callerSet (⟨0, some 1⟩ : BoundHost Nat) 7) (Source.bare 2)).cell = 2 ∧
    runBoundEffect (callerSet (⟨0, some 1⟩ : BoundHost Nat) 7) (Source.link ⟨99, 1⟩) =
      callerSet (⟨0, some 1⟩ : BoundHost Nat) 7 :=
  useBoundLink_source_wins ⟨0, some 1⟩ 1 2 7 (Source.bare 2) (Source.link ⟨99, 1⟩)
    rfl rfl (by decide) rfl

/-- C7.  The mount flag is `true` from creation and stays `true` exactly
until a teardown event appears in the lifecycle; composing any further
events after a sequence multiplies the flags, so once the flag is `false`
(teardown happened) it is `false` forever. -/
theorem useIsMountedRef_flag_lifecycle (t u : List LifeEvent) :
    mountedFlagAfter t = !(t.any isTeardownEv) ∧
    mountedFlagAfter (t ++ u) = (mountedFlagAfter t && mountedFlagAfter u) := by
  constructor
  · have := foldl_mountedFlagStep t true
    simpa [mountedFlagAfter] using this
  · rw [mountedFlagAfter, mountedFlagAfter, mountedFlagAfter, List.foldl_append]
    simp only [foldl_mountedFlagStep, List.any_append]
    cases t.any isTeardownEv <;> cases u.any isTeardownEv <;> rfl

/-- C8 counterexample.  Non-empty malformed content at the persistence key:
the `||` fallback on line 101 does not apply (the text is truthy), so the
raw text reaches `JSON.parse`, which throws; the load does not fall back to
the empty default object. -/
theorem useLocalStorage_malformed_throws_cex :
    @loadOnMount Int (some RawText.badText) = Except.error () ∧
    @loadOnMount Int (some RawText.badText) ≠ Except.ok [] := by
  exact ⟨rfl, fun h => Except.noConfusion h⟩

/-- C8, amended.  The load-on-mount step falls back to the empty default
object exactly when `localStorage.getItem` returns `null` (no entry) or the
falsy empty string; well-formed content decodes to its object, and
malformed non-empty content is handed to `JSON.parse` as is and makes it
throw. -/
theorem useLocalStorage_load_fallback {V : Type} (o : List (String × V)) :
    loadOnMount (none : Option (RawText V)) = Except.ok [] ∧
    loadOnMount (some (RawText.emptyText : RawText V)) = Except.ok [] ∧
    loadOnMount (some (RawText.jsonOf o)) = Except.ok o ∧
    loadOnMount (some (RawText.badText : RawText V)) = Except.error () :=
  ⟨rfl, rfl, rfl, rfl⟩

/-- C9.  With the mount flag false, `update` on a safe link is a complete
no-op: the guarded `set` short-circuits before the host setter, so the
state reference is unchanged, the heap is unchanged, and the effect log is
unchanged — in particular no `cloneCall` and no `fnCall` was performed, so
the clone was never made and the user function was never invoked. -/
theorem safeLink_update_after_teardown_noop {α Ev : Type} [Inhabited α]
    (w : World α) (cell : Nat) (fn : FnSem α Ev) (event : Option Ev) :
    safeUpdate false w cell fn event = (w, cell) ∧
    (safeUpdate false w cell fn event).1.log = w.log :=
  ⟨rfl, rfl⟩

theorem foldl_overwrite_getLastD {β : Type} (rest : List β) (first : β) :
    rest.foldl (fun _ s => s) first = rest.getLastD first := by
  induction rest generalizing first with
  | nil => rfl
  | cons a t ih =>
    simp only [List.foldl_cons, List.getLastD_cons]
    exact ih a

/-- C10.  The teardown cleanup of `useLocalStorage` persists the values of
the links object seen by the most recent render: `stateRef.current` is
rewritten on every render, so after renders `first, rest...` the persisted
data is `getValues` of the last links object, not of the one captured at
mount. -/
theorem useLocalStorage_saves_last_render {V : Type}
    (first : List (String × LinkObj V)) (rest : List (List (String × LinkObj V))) :
    persistedAtTeardown first rest = getValues (rest.getLastD first) := by
  simp [persistedAtTeardown, finalStateRef, foldl_overwrite_getLastD]
